import Mathlib

/-!
Verification of the foxymama trading engine (src/main.py) against its
natural-language specification.  The Python code is shallowly embedded:
candle dataframes become lists of rows carrying the indicator columns,
the global `positions` dict becomes an association list, prices are exact
rationals, and the fallible exchange calls are parametrised by booleans
describing the collaborator's behaviour.
-/

namespace Foxymama

/-- One row of the candle dataframe after `calculate_indicators` has added
the indicator columns used by `generate_signals` and the orchestrator. -/
structure Row where
  rsi : ℚ
  macd_hist : ℚ
  ema20 : ℚ
  ema50 : ℚ
  close : ℚ
  deriving DecidableEq, Repr

/-- The trading signal enumeration returned by `generate_signals`. -/
inductive Signal where
  | BUY
  | SELL
  | HOLD
  deriving DecidableEq, Repr

/-- Embedding of `generate_signals(df)` (src/main.py lines 151-166):
`if df.empty or len(df) < 50: return HOLD`; otherwise read the last row
(`df.iloc[-1]`), return BUY when `rsi < 30 and macd_hist > 0 and
ema20 > ema50`, else SELL when `rsi > 70 or macd_hist < 0 or
ema20 < ema50`, else HOLD. -/
def generate_signals (df : List Row) : Signal :=
  if df.isEmpty = true ∨ df.length < 50 then Signal.HOLD
  else
    match df.getLast? with
    | none => Signal.HOLD
    | some latest =>
      if latest.rsi < 30 ∧ latest.macd_hist > 0 ∧ latest.ema20 > latest.ema50 then
        Signal.BUY
      else if latest.rsi > 70 ∨ latest.macd_hist < 0 ∨ latest.ema20 < latest.ema50 then
        Signal.SELL
      else Signal.HOLD

/-- Reference decision function stated by the claim C1 / spec section 4.2:
rules tried in order with first match winning; if the dataframe is empty or
has fewer than 50 rows, HOLD; else, reading only the newest row, BUY iff
rsi < 30 and macd_hist > 0 and ema20 > ema50; else SELL iff rsi > 70 or
macd_hist < 0 or ema20 < ema50; else HOLD. -/
def signal_spec (df : List Row) : Signal :=
  if df = [] ∨ df.length < 50 then Signal.HOLD
  else
    match df.getLast? with
    | none => Signal.HOLD
    | some latest =>
      if latest.rsi < 30 ∧ latest.macd_hist > 0 ∧ latest.ema20 > latest.ema50 then
        Signal.BUY
      else if latest.rsi > 70 ∨ latest.macd_hist < 0 ∨ latest.ema20 < latest.ema50 then
        Signal.SELL
      else Signal.HOLD

/-- One entry of the global `positions` dict (src/main.py line 264):
`{'size': ..., 'entry_price': ..., 'is_short': ..., 'timestamp': ...}`. -/
structure Position where
  size : ℚ
  entry_price : ℚ
  is_short : Bool
  timestamp : ℚ
  deriving DecidableEq, Repr

/-- The global `positions` dict: product_id → Position, modelled as an
association list with lookup semantics. -/
abbrev Book := List (String × Position)

/-- Dict deletion `del positions[product_id]` / dict overwrite semantics:
the entry for `pid` is removed from the association list. -/
def eraseKey (book : Book) (pid : String) : Book :=
  book.filter (fun e => e.1 ≠ pid)

/-- Embedding of `record_position(product_id, size, price, is_short)`
(src/main.py lines 262-271): `positions[product_id] = {...}` — the dict
assignment unconditionally stores the new position, overwriting any
existing entry for the key; no check and no exception. -/
def record_position (book : Book) (pid : String) (size price : ℚ)
    (is_short : Bool) (now : ℚ) : Book :=
  (pid, ⟨size, price, is_short, now⟩) :: eraseKey book pid

/-- Stop loss percentage, src/main.py line 78: `STOP_LOSS_PERCENTAGE = 0.02`. -/
def STOP_LOSS_PERCENTAGE : ℚ := 2 / 100

/-- Fixed $2 position size per trade, src/main.py line 346. -/
def position_size : ℚ := 2

/-- Embedding of `calculate_pl(product_id, exit_price)` (src/main.py
lines 273-294).  If the product has no entry in `positions`, a warning is
logged and the function returns with no book change and no P/L (no
exception).  Otherwise P/L is `(entry - exit) * size` for a short and
`(exit - entry) * size` for a long; the logged/notified P/L is the second
component, and `del positions[product_id]` removes the entry. -/
def calculate_pl (book : Book) (pid : String) (exit_price : ℚ) :
    Book × Option ℚ :=
  match book.lookup pid with
  | none => (book, none)
  | some pos =>
    let pl :=
      if pos.is_short then (pos.entry_price - exit_price) * pos.size
      else (exit_price - pos.entry_price) * pos.size
    (eraseKey book pid, some pl)

/-- Observable behaviour of one `execute_trade` call: whether the Python
return value is truthy, whether `api.create_order` was reached, whether a
Telegram notification was sent, and whether that notification carried the
`[SAFE MODE]` tag. -/
structure ExecResult where
  result_truthy : Bool
  contacted_endpoint : Bool
  notified : Bool
  notif_safe_mode_tag : Bool
  deriving DecidableEq, Repr

/-- Embedding of `execute_trade(product_id, side, size, price)`
(src/main.py lines 235-260).  `safe_mode` is the process-wide `SAFE_MODE`
flag; `submit_ok` says whether `api.create_order` would succeed (False =
it raises).  In safe mode the function logs, notifies with the
`[SAFE MODE]` tag and returns True without touching the API.  In live
mode it calls `create_order`: on success it notifies and returns the
(truthy) order object; on an exception it notifies the error and returns
None (falsy). -/
def execute_trade (safe_mode submit_ok : Bool) : ExecResult :=
  if safe_mode then ⟨true, false, true, true⟩
  else if submit_ok then ⟨true, true, true, false⟩
  else ⟨false, true, true, false⟩

/-- Side of an order request passed to `execute_trade`. -/
inductive Side where
  | buy
  | sell
  deriving DecidableEq, Repr

/-- An order request as handed to `execute_trade`: product, side, base
size and limit price. -/
structure Trade where
  pid : String
  side : Side
  size : ℚ
  price : ℚ
  deriving DecidableEq, Repr

/-- Result of one per-instrument step of the orchestrator or of the
stop-loss scan: the new position book, the order request issued via
`execute_trade` (if any), and the realized P/L logged by `calculate_pl`
(if any). -/
structure StepOut where
  book : Book
  trade : Option Trade
  pnl : Option ℚ
  deriving DecidableEq, Repr

/-- Embedding of the per-instrument body of `trading_bot` (src/main.py
lines 353-380) after the candle fetch: skip when the dataframe is empty;
on BUY compute `size = position_size / current_price`,
`buy_price = current_price * 1.001`, execute the buy and on a truthy
result `record_position`; on SELL with an open position compute
`sell_price = current_price * 0.999`, execute the sell for the stored
size and on a truthy result `calculate_pl(product_id, sell_price)`; on
SELL with no position only log; on HOLD do nothing. -/
def bot_step (safe_mode submit_ok : Bool) (book : Book) (pid : String)
    (df : List Row) (now : ℚ) : StepOut :=
  if df.isEmpty then ⟨book, none, none⟩
  else
    match generate_signals df, df.getLast? with
    | Signal.BUY, some last =>
      let current_price := last.close
      let size := position_size / current_price
      let buy_price := current_price * (1001 / 1000)
      let r := execute_trade safe_mode submit_ok
      ⟨if r.result_truthy then record_position book pid size buy_price false now
        else book,
       some ⟨pid, Side.buy, size, buy_price⟩, none⟩
    | Signal.SELL, some last =>
      match book.lookup pid with
      | some pos =>
        let current_price := last.close
        let sell_price := current_price * (999 / 1000)
        let r := execute_trade safe_mode submit_ok
        if r.result_truthy then
          let c := calculate_pl book pid sell_price
          ⟨c.1, some ⟨pid, Side.sell, pos.size, sell_price⟩, c.2⟩
        else ⟨book, some ⟨pid, Side.sell, pos.size, sell_price⟩, none⟩
      | none => ⟨book, none, none⟩
    | _, _ => ⟨book, none, none⟩

/-- Embedding of one iteration of `check_stop_loss` (src/main.py
lines 296-333) for the position of `pid`.  `priceOpt` is the close of the
latest 1-minute candle (`none` models an empty dataframe, which is
skipped).  For a short the stop is `entry_price * (1 + STOP_LOSS_PERCENTAGE)`
and triggers when `current_price ≥ stop`; for a long the stop is
`entry_price * (1 - STOP_LOSS_PERCENTAGE)` and triggers when
`current_price ≤ stop`.  On a trigger a closing trade (opposite side, the
stored size, at `current_price` itself) is executed, and if the order is
truthy `calculate_pl(product_id, current_price)` runs. -/
def check_stop_loss_one (safe_mode submit_ok : Bool) (book : Book)
    (pid : String) (priceOpt : Option ℚ) : StepOut :=
  match book.lookup pid, priceOpt with
  | some pos, some current_price =>
    if pos.is_short then
      if current_price ≥ pos.entry_price * (1 + STOP_LOSS_PERCENTAGE) then
        let r := execute_trade safe_mode submit_ok
        if r.result_truthy then
          let c := calculate_pl book pid current_price
          ⟨c.1, some ⟨pid, Side.buy, pos.size, current_price⟩, c.2⟩
        else ⟨book, some ⟨pid, Side.buy, pos.size, current_price⟩, none⟩
      else ⟨book, none, none⟩
    else
      if current_price ≤ pos.entry_price * (1 - STOP_LOSS_PERCENTAGE) then
        let r := execute_trade safe_mode submit_ok
        if r.result_truthy then
          let c := calculate_pl book pid current_price
          ⟨c.1, some ⟨pid, Side.sell, pos.size, current_price⟩, c.2⟩
        else ⟨book, some ⟨pid, Side.sell, pos.size, current_price⟩, none⟩
      else ⟨book, none, none⟩
  | _, _ => ⟨book, none, none⟩

/-- One product record as returned by the product-listing collaborator;
only the fields the code reads. -/
structure Product where
  product_id : String
  trading_disabled : Bool
  deriving DecidableEq, Repr

/-- Embedding of `get_trading_products()` (src/main.py lines 91-105):
filter the listing to products with `trading_disabled` false. -/
def get_trading_products (ps : List Product) : List Product :=
  ps.filter (fun p => !p.trading_disabled)

/-- Embedding of Python `str.endswith`: the string's characters end with
the suffix's characters. -/
def pyEndsWith (s suf : String) : Bool :=
  suf.data.isSuffixOf s.data

/-- `product_id.endswith('-USD')`, src/main.py line 350. -/
def usd_pair (p : Product) : Bool :=
  pyEndsWith p.product_id ("-USD")

/-- The loop body of `trading_bot` restricted to which product ids get
evaluated: `for product in products[:10]`, skipping with `continue` any
id that does not end in `-USD` (src/main.py lines 348-351). -/
def scan_loop : List Product → List String
  | [] => []
  | p :: rest =>
    if usd_pair p then p.product_id :: scan_loop rest else scan_loop rest

/-- The instrument universe one cycle evaluates, as the code computes it:
take the first 10 trading-enabled products, then keep USD pairs. -/
def cycle_universe (ps : List Product) : List String :=
  scan_loop ((get_trading_products ps).take 10)

/-- Reference universe stated by claim C9 / spec section 4.6 (b): first
filter to USD-quoted trading-enabled instruments, then cap to 10. -/
def claim_universe (ps : List Product) : List String :=
  (((ps.filter (fun p => !p.trading_disabled)).filter usd_pair).take 10).map
    (fun p => p.product_id)

/-- Lookup after erasing a key finds nothing. -/
theorem lookup_eraseKey (book : Book) (pid : String) :
    (eraseKey book pid).lookup pid = none := by
  induction book with
  | nil => rfl
  | cons e t ih =>
    by_cases h : e.1 = pid
    · simpa [eraseKey, h] using ih
    · simpa [eraseKey, List.lookup, h, beq_false_of_ne (Ne.symm h)] using ih

end Foxymama

namespace Foxymama

/-- C1: For every candle dataframe, the generated signal equals the
reference decision function: HOLD when empty or fewer than 50 rows,
otherwise first-match among BUY (rsi < 30 ∧ macd_hist > 0 ∧ ema20 > ema50),
SELL (rsi > 70 ∨ macd_hist < 0 ∨ ema20 < ema50), HOLD. -/
theorem generate_signals_eq_signal_spec (df : List Row) :
    generate_signals df = signal_spec df := by
  unfold generate_signals signal_spec
  simp [List.isEmpty_iff]

/-- C2 counterexample: opening over an existing position does not fail —
`record_position` completes normally and overwrites the stored entry —
and closing with no open position does not fail either —
`calculate_pl` returns with the book unchanged and no P/L.  Neither
invariant violation produces an error. -/
theorem positions_no_loud_failure_cex :
    (record_position [(("X-USD"), ⟨1, 50, false, 0⟩)] ("X-USD") 5 6 false 7).lookup
        ("X-USD") = some ⟨5, 6, false, 7⟩ ∧
    calculate_pl [] ("X-USD") 10 = ([], none) := by
  decide

/-- C2 amended: opening a position on an instrument that already has one
silently overwrites it (the stored entry afterwards is the new position,
whatever was there before), and closing a position on an instrument with
no open position is silently absorbed (book unchanged, no P/L, no error). -/
theorem positions_invariant_silently_absorbed (book : Book) (pid : String)
    (size price now exit_price : ℚ) (sh : Bool)
    (h : book.lookup pid = none) :
    (record_position book pid size price sh now).lookup pid =
      some ⟨size, price, sh, now⟩ ∧
    calculate_pl book pid exit_price = (book, none) := by
  constructor
  · simp [record_position, List.lookup]
  · simp [calculate_pl, h]

/-- C2 witness: the amended behaviour at a concrete book. -/
theorem positions_invariant_silently_absorbed_witness :
    (record_position [] ("X-USD") 5 6 false 7).lookup ("X-USD") =
      some ⟨5, 6, false, 7⟩ ∧
    calculate_pl [] ("X-USD") 10 = ([], none) :=
  positions_invariant_silently_absorbed [] ("X-USD") 5 6 7 10 false (by decide)

/-- C3: closing an open position with entry price E and size S yields
P/L = (exit − E) × S for a long and (E − exit) × S for a short, and the
instrument's entry is removed from the book afterwards. -/
theorem calculate_pl_correct (book : Book) (pid : String) (pos : Position)
    (exit_price : ℚ) (h : book.lookup pid = some pos) :
    (calculate_pl book pid exit_price).2 =
      some (if pos.is_short then (pos.entry_price - exit_price) * pos.size
            else (exit_price - pos.entry_price) * pos.size) ∧
    ((calculate_pl book pid exit_price).1).lookup pid = none := by
  refine ⟨?_, ?_⟩ <;> simp [calculate_pl, h, lookup_eraseKey]

/-- C3 witness: a long of size 2 entered at 3 closed at 5 realizes
(5 − 3) × 2 = 4 and is removed. -/
theorem calculate_pl_correct_witness :
    (calculate_pl [(("X-USD"), ⟨2, 3, false, 0⟩)] ("X-USD") 5).2 =
      some (if (false : Bool) then ((3 : ℚ) - 5) * 2 else ((5 : ℚ) - 3) * 2) ∧
    ((calculate_pl [(("X-USD"), ⟨2, 3, false, 0⟩)] ("X-USD") 5).1).lookup
      ("X-USD") = none :=
  calculate_pl_correct [(("X-USD"), ⟨2, 3, false, 0⟩)] ("X-USD")
    ⟨2, 3, false, 0⟩ 5 (by decide)

/-- C4: for an open position with entry price E, the stop-loss closing
trade is issued iff current_price ≤ E × (1 − STOP_LOSS_PERCENTAGE) for a
long, and iff current_price ≥ E × (1 + STOP_LOSS_PERCENTAGE) for a short,
with STOP_LOSS_PERCENTAGE = 0.02. -/
theorem stop_loss_trigger_iff (safe_mode submit_ok : Bool) (book : Book)
    (pid : String) (pos : Position) (cp : ℚ)
    (h : book.lookup pid = some pos) :
    ((check_stop_loss_one safe_mode submit_ok book pid (some cp)).trade).isSome
      ↔ (if pos.is_short then
           pos.entry_price * (1 + STOP_LOSS_PERCENTAGE) ≤ cp
         else cp ≤ pos.entry_price * (1 - STOP_LOSS_PERCENTAGE)) := by
  unfold check_stop_loss_one
  rw [h]
  by_cases hs : pos.is_short <;>
    by_cases hr : (execute_trade safe_mode submit_ok).result_truthy <;>
      simp [hs, hr, ge_iff_le, le_refl] <;> split <;> simp_all

/-- C4 witness: a long with entry 100 is closed at current price exactly
98.00 and not at 98.01. -/
theorem stop_loss_trigger_iff_witness :
    (((check_stop_loss_one true true [(("X-USD"), ⟨1, 100, false, 0⟩)]
        ("X-USD") (some 98)).trade).isSome = true) ∧
    ¬ (((check_stop_loss_one true true [(("X-USD"), ⟨1, 100, false, 0⟩)]
        ("X-USD") (some (9801 / 100))).trade).isSome = true) := by
  constructor
  · exact (stop_loss_trigger_iff true true _ ("X-USD") ⟨1, 100, false, 0⟩ 98
      (by decide)).mpr (by norm_num [STOP_LOSS_PERCENTAGE])
  · intro hc
    have hiff := (stop_loss_trigger_iff true true
      [(("X-USD"), ⟨1, 100, false, 0⟩)] ("X-USD") ⟨1, 100, false, 0⟩
      (9801 / 100) (by decide)).mp hc
    norm_num [STOP_LOSS_PERCENTAGE] at hiff

/-- C5: in simulation (SAFE_MODE) mode, for every behaviour of the order
endpoint, `execute_trade` never contacts the order-placement endpoint,
returns a truthy success, and still sends a notification tagged
[SAFE MODE]. -/
theorem safe_mode_execute (submit_ok : Bool) :
    (execute_trade true submit_ok).contacted_endpoint = false ∧
    (execute_trade true submit_ok).result_truthy = true ∧
    (execute_trade true submit_ok).notified = true ∧
    (execute_trade true submit_ok).notif_safe_mode_tag = true := by
  cases submit_ok <;> exact ⟨rfl, rfl, rfl, rfl⟩

/-- A non-HOLD signal can only come from a nonempty dataframe. -/
theorem isEmpty_false_of_signal (df : List Row)
    (h : generate_signals df ≠ Signal.HOLD) : df.isEmpty = false := by
  cases he : df.isEmpty
  · rfl
  · exact absurd (by unfold generate_signals; simp [he]) h

/-- A 50-row dataframe whose newest row triggers a SELL
(rsi = 75 > 70), with close = 100. -/
def sellDf : List Row := List.replicate 50 ⟨75, 0, 1, 1, 100⟩

/-- A 50-row dataframe whose newest row triggers a BUY
(rsi = 25 < 30, macd_hist = 1 > 0, ema20 = 2 > ema50 = 1), with
close = 50. -/
def buyDf : List Row := List.replicate 50 ⟨25, 1, 2, 1, 50⟩

/-- C6: in live mode, when order submission raises, `execute_trade`
returns a falsy (FAILED) outcome and neither the per-instrument cycle
step nor the stop-loss scan mutates the position book or realizes any
P/L: no position is recorded for a failed buy, none is removed for a
failed sell. -/
theorem live_error_no_mutation (book : Book) (pid : String) (df : List Row)
    (now : ℚ) (priceOpt : Option ℚ) :
    (execute_trade false false).result_truthy = false ∧
    (bot_step false false book pid df now).book = book ∧
    (bot_step false false book pid df now).pnl = none ∧
    (check_stop_loss_one false false book pid priceOpt).book = book ∧
    (check_stop_loss_one false false book pid priceOpt).pnl = none := by
  have hbs : (bot_step false false book pid df now).book = book ∧
      (bot_step false false book pid df now).pnl = none := by
    unfold bot_step
    by_cases he : df.isEmpty = true
    · simp [he]
    · cases hs : generate_signals df
      all_goals cases hl : df.getLast?
      all_goals simp [he, hs, hl, execute_trade]
      cases hb : book.lookup pid <;> simp [hb]
  have hsl : (check_stop_loss_one false false book pid priceOpt).book = book ∧
      (check_stop_loss_one false false book pid priceOpt).pnl = none := by
    unfold check_stop_loss_one
    cases hb : book.lookup pid
    all_goals cases priceOpt
    all_goals simp [execute_trade]
    split <;> split <;> simp
  exact ⟨rfl, hbs.1, hbs.2, hsl.1, hsl.2⟩

/-- C7 counterexample: with a SELL signal, current close 100, and an open
long of size 1 entered at 50, the realized P/L is
(100 × 0.999 − 50) × 1 = 49.9, not (100 − 50) × 1 = 50: the close is
booked at the skewed sell limit price, not at the current price. -/
theorem sell_close_current_price_cex :
    (bot_step true true [(("X-USD"), ⟨1, 50, false, 0⟩)] ("X-USD") sellDf 0).pnl
      = some (499 / 10) ∧
    ((499 : ℚ) / 10) ≠ ((100 : ℚ) - 50) * 1 := by
  constructor
  · have he : sellDf.isEmpty = false := rfl
    have hsig : generate_signals sellDf = Signal.SELL := rfl
    have hlast : sellDf.getLast? = some ⟨75, 0, 1, 1, 100⟩ := rfl
    have hb : List.lookup ("X-USD")
        [(("X-USD"), (⟨1, 50, false, 0⟩ : Position))] =
        some ⟨1, 50, false, 0⟩ := by decide
    unfold bot_step
    simp [he, hsig, hlast, hb, calculate_pl, execute_trade]
    norm_num
  · norm_num

/-- C7 amended: on SELL with an open position the orchestrator sells the
stored size at current_price × 0.999 and realizes the P/L against that
skewed price, removing the position; on SELL with no open position the
step issues no trade and leaves the book untouched. -/
theorem sell_step_behaviour (safe_mode submit_ok : Bool)
    (book bookNone : Book) (pid : String) (pos : Position) (df : List Row)
    (last : Row) (now : ℚ)
    (hsig : generate_signals df = Signal.SELL)
    (hlast : df.getLast? = some last)
    (hsucc : (execute_trade safe_mode submit_ok).result_truthy = true)
    (hb : book.lookup pid = some pos)
    (hn : bookNone.lookup pid = none) :
    bot_step safe_mode submit_ok book pid df now =
      ⟨eraseKey book pid,
       some ⟨pid, Side.sell, pos.size, last.close * (999 / 1000)⟩,
       some (if pos.is_short then
               (pos.entry_price - last.close * (999 / 1000)) * pos.size
             else (last.close * (999 / 1000) - pos.entry_price) * pos.size)⟩ ∧
    bot_step safe_mode submit_ok bookNone pid df now = ⟨bookNone, none, none⟩ := by
  have he : df.isEmpty = false := isEmpty_false_of_signal df (by simp [hsig])
  constructor
  · unfold bot_step
    simp [he, hsig, hlast, hb, hsucc, calculate_pl]
  · unfold bot_step
    simp [he, hsig, hlast, hn]

/-- C7 witness: the amended behaviour at a concrete SELL dataframe, an
open long of size 1 entered at 50, and an empty book. -/
theorem sell_step_behaviour_witness :
    bot_step true true [(("X-USD"), ⟨1, 50, false, 0⟩)] ("X-USD") sellDf 0 =
      ⟨eraseKey [(("X-USD"), ⟨1, 50, false, 0⟩)] ("X-USD"),
       some ⟨("X-USD"), Side.sell, 1, 100 * (999 / 1000)⟩,
       some (if (false : Bool) then ((50 : ℚ) - 100 * (999 / 1000)) * 1
             else ((100 : ℚ) * (999 / 1000) - 50) * 1)⟩ ∧
    bot_step true true [] ("X-USD") sellDf 0 = ⟨[], none, none⟩ :=
  sell_step_behaviour true true [(("X-USD"), ⟨1, 50, false, 0⟩)] []
    ("X-USD") ⟨1, 50, false, 0⟩ sellDf ⟨75, 0, 1, 1, 100⟩ 0
    rfl rfl rfl (by decide) rfl

/-- C8 counterexample: a stop-loss close for a long with entry 100 at
current price 98 is issued at price 98 itself, and 98 ≠ 98 × 0.999: the
0.999 sell skew is not applied to stop-loss closing trades. -/
theorem stop_loss_skew_cex :
    (check_stop_loss_one true true [(("X-USD"), ⟨1, 100, false, 0⟩)]
        ("X-USD") (some 98)).trade = some ⟨("X-USD"), Side.sell, 1, 98⟩ ∧
    ((98 : ℚ)) ≠ 98 * (999 / 1000) := by
  constructor
  · have hb : List.lookup ("X-USD")
        [(("X-USD"), (⟨1, 100, false, 0⟩ : Position))] =
        some ⟨1, 100, false, 0⟩ := by decide
    unfold check_stop_loss_one
    rw [hb]
    norm_num [STOP_LOSS_PERCENTAGE, execute_trade, calculate_pl, hb]
  · norm_num

/-- C8 amended: signal-driven orders carry the skew — the order issued by
the per-instrument cycle step is priced at current_close × 1.001 when it
is a buy and current_close × 0.999 when it is a sell — but stop-loss
closing trades are issued at the current price itself, with no skew. -/
theorem trade_price_skew (safe_mode submit_ok : Bool) (book book2 : Book)
    (pid : String) (df : List Row) (last : Row) (now cp : ℚ) (t u : Trade)
    (hlast : df.getLast? = some last)
    (ht : (bot_step safe_mode submit_ok book pid df now).trade = some t)
    (hu : (check_stop_loss_one safe_mode submit_ok book2 pid (some cp)).trade
      = some u) :
    t.price = (if t.side = Side.buy then last.close * (1001 / 1000)
               else last.close * (999 / 1000)) ∧
    u.price = cp := by
  constructor
  · unfold bot_step at ht
    by_cases he : df.isEmpty = true
    · simp [he] at ht
    · cases hs : generate_signals df
      · rw [hs] at ht
        simp [he, hlast] at ht
        subst ht
        simp
      · rw [hs] at ht
        cases hb : book.lookup pid
        · simp [he, hlast, hb] at ht
        · simp [he, hlast, hb] at ht
          split at ht
          all_goals
            simp only [Option.some.injEq] at ht
            subst ht
            simp
      · rw [hs] at ht
        simp [he, hlast] at ht
  · unfold check_stop_loss_one at hu
    cases hb2 : book2.lookup pid
    · rw [hb2] at hu
      simp at hu
    · rw [hb2] at hu
      by_cases hsh : (Option.get (book2.lookup pid) (by simp [hb2])).is_short
      all_goals
        simp only [hb2, Option.get_some] at hsh
        simp only [hsh, if_true, if_false, Bool.false_eq_true] at hu
      all_goals split at hu
      all_goals first
        | (split at hu <;> (injection hu with hu; subst hu; rfl))
        | simp at hu

/-- C8 witness: a BUY-signal order on close 50 is priced at 50 × 1.001,
and a stop-loss close at current price 98 is priced at 98. -/
theorem trade_price_skew_witness :
    (Trade.mk ("X-USD") Side.buy (position_size / 50) (50 * (1001 / 1000))).price
      = (if (Trade.mk ("X-USD") Side.buy (position_size / 50)
              (50 * (1001 / 1000))).side = Side.buy
         then ((50 : ℚ)) * (1001 / 1000) else ((50 : ℚ)) * (999 / 1000)) ∧
    (Trade.mk ("X-USD") Side.sell 1 98).price = 98 :=
  trade_price_skew true true [] [(("X-USD"), ⟨1, 100, false, 0⟩)] ("X-USD")
    buyDf ⟨25, 1, 2, 1, 50⟩ 0 98
    ⟨("X-USD"), Side.buy, position_size / 50, 50 * (1001 / 1000)⟩
    ⟨("X-USD"), Side.sell, 1, 98⟩ rfl
    (by have he : buyDf.isEmpty = false := rfl
        have hsig : generate_signals buyDf = Signal.BUY := rfl
        have hlast : buyDf.getLast? = some ⟨25, 1, 2, 1, 50⟩ := rfl
        unfold bot_step
        simp [he, hsig, hlast, execute_trade])
    (by have hb : List.lookup ("X-USD")
          [(("X-USD"), (⟨1, 100, false, 0⟩ : Position))] =
          some ⟨1, 100, false, 0⟩ := by decide
        unfold check_stop_loss_one
        rw [hb]
        norm_num [STOP_LOSS_PERCENTAGE, execute_trade, calculate_pl, hb])

/-- The `trading_bot` loop keeps exactly the USD pairs, in order. -/
theorem scan_loop_eq_filter (l : List Product) :
    scan_loop l = (l.filter usd_pair).map (fun p => p.product_id) := by
  induction l with
  | nil => rfl
  | cons p t ih =>
    by_cases h : usd_pair p <;> simp [scan_loop, h, ih]

/-- A listing of ten trading-enabled non-USD products followed by one
trading-enabled USD product. -/
def cexListing : List Product :=
  [⟨("A-EUR"), false⟩, ⟨("B-EUR"), false⟩, ⟨("C-EUR"), false⟩,
   ⟨("D-EUR"), false⟩, ⟨("E-EUR"), false⟩, ⟨("F-EUR"), false⟩,
   ⟨("G-EUR"), false⟩, ⟨("H-EUR"), false⟩, ⟨("I-EUR"), false⟩,
   ⟨("J-EUR"), false⟩, ⟨("X-USD"), false⟩]

/-- C9 counterexample: with ten trading-enabled non-USD products ahead of
one USD product, the cycle evaluates no instrument at all, while the
claimed filter-then-cap universe contains the USD product. -/
theorem cycle_universe_cex :
    cycle_universe cexListing = [] ∧
    claim_universe cexListing = [("X-USD")] ∧
    cycle_universe cexListing ≠ claim_universe cexListing := by
  refine ⟨by decide, by decide, by decide⟩

/-- C9 amended: the instruments evaluated in a cycle are obtained by first
capping the trading-enabled listing to its first 10 products and then
filtering to USD pairs — USD pairs beyond the first 10 trading-enabled
products are never evaluated. -/
theorem cycle_universe_cap_then_filter (ps : List Product) :
    cycle_universe ps =
      (((ps.filter (fun p => !p.trading_disabled)).take 10).filter
        usd_pair).map (fun p => p.product_id) := by
  unfold cycle_universe get_trading_products
  exact scan_loop_eq_filter _

/-- C10: on a BUY signal for an instrument that already has an open
position, the orchestrator places another buy (sized and skewed off the
current close) and `record_position` unconditionally overwrites the
stored position with the new size and entry price; the previous position
is discarded with no closing trade and no P/L realization. -/
theorem buy_overwrites_open_position (safe_mode submit_ok : Bool)
    (book : Book) (pid : String) (pos : Position) (df : List Row)
    (last : Row) (now : ℚ)
    (hsig : generate_signals df = Signal.BUY)
    (hlast : df.getLast? = some last)
    (hsucc : (execute_trade safe_mode submit_ok).result_truthy = true)
    (_hb : book.lookup pid = some pos) :
    bot_step safe_mode submit_ok book pid df now =
      ⟨record_position book pid (position_size / last.close)
         (last.close * (1001 / 1000)) false now,
       some ⟨pid, Side.buy, position_size / last.close,
             last.close * (1001 / 1000)⟩, none⟩ ∧
    (bot_step safe_mode submit_ok book pid df now).book.lookup pid =
      some ⟨position_size / last.close, last.close * (1001 / 1000),
            false, now⟩ := by
  have he : df.isEmpty = false := isEmpty_false_of_signal df (by simp [hsig])
  have h1 : bot_step safe_mode submit_ok book pid df now =
      ⟨record_position book pid (position_size / last.close)
         (last.close * (1001 / 1000)) false now,
       some ⟨pid, Side.buy, position_size / last.close,
             last.close * (1001 / 1000)⟩, none⟩ := by
    unfold bot_step
    simp [he, hsig, hlast, hsucc]
  refine ⟨h1, ?_⟩
  rw [h1]
  simp [record_position, List.lookup]

/-- C10 witness: a BUY dataframe with close 50 and an old open position of
size 7 entered at 99: the book afterwards stores the fresh position. -/
theorem buy_overwrites_open_position_witness :
    bot_step true true [(("X-USD"), ⟨7, 99, false, 0⟩)] ("X-USD") buyDf 5 =
      ⟨record_position [(("X-USD"), ⟨7, 99, false, 0⟩)] ("X-USD")
         (position_size / 50) (50 * (1001 / 1000)) false 5,
       some ⟨("X-USD"), Side.buy, position_size / 50,
             50 * (1001 / 1000)⟩, none⟩ ∧
    (bot_step true true [(("X-USD"), ⟨7, 99, false, 0⟩)] ("X-USD") buyDf
        5).book.lookup ("X-USD") =
      some ⟨position_size / 50, 50 * (1001 / 1000), false, 5⟩ :=
  buy_overwrites_open_position true true [(("X-USD"), ⟨7, 99, false, 0⟩)]
    ("X-USD") ⟨7, 99, false, 0⟩ buyDf ⟨25, 1, 2, 1, 50⟩ 5
    rfl rfl rfl (by decide)

end Foxymama
